import Mathlib

/-!
Verification of the Dbcube query-builder core.

The repository contains two implementations of the fluent `Table` builder:
an in-place-mutating one (`src/lib/Database.ts`, where chain steps push onto
`this.dml` and return `this`) and a clone-on-write one (an unnamed source
file, where every chain step first calls `this.clone()`).  The pure value
embedding below (`Table` and its methods) captures the builder algebra and
the execution orchestrator `getResponse`, which both variants share up to
the aliasing behaviour; the aliasing difference itself is modelled
separately with an explicit heap (`TObj`, `whereMut`, `whereClone`).

JavaScript dynamic values are modelled by `JsValue` (numbers, strings,
booleans, null, undefined, arrays); machine-level number representation is
irrelevant to the claims, so numbers are `Int`.  External collaborators
(execution engine, computed-field processor, trigger handlers) are
parameters (`Collab`), and every engine call, trigger-handler invocation,
interceptor commit/discard and formatted-error print is recorded in an
event trace (`Ev`) so that dispatch-counting claims are statable.
-/

/-- JavaScript-style dynamic value: number, string, boolean, null,
undefined, or array. -/
inductive JsValue where
  | num (n : Int)
  | str (s : String)
  | boolean (b : Bool)
  | nullV
  | undef
  | arr (xs : List JsValue)
deriving Repr

/-- A result row: a JS object as an association list from keys to values. -/
abbrev Row := List (String × JsValue)

/-- Connective joining a WHERE node to its predecessor,
`type: 'AND' | 'OR'` in the source. -/
inductive Conn where
  | AND
  | OR
deriving Repr, DecidableEq

/-- A WHERE node: a leaf `{column, operator, value, type, isGroup:false}`
or a group `{type, isGroup:true, conditions}` (tagged union discriminated
by `isGroup` in the source). -/
inductive WhereNode where
  | leaf (column : String) (operator : String) (value : JsValue) (conn : Conn)
  | group (conn : Conn) (conditions : List WhereNode)
deriving Repr

/-- The `on` part of a join clause. -/
structure JoinOn where
  column1 : String
  operator : String
  column2 : String
deriving Repr

/-- A join entry `{type, table, on}`. -/
structure Join where
  joinType : String
  table : String
  onJoin : JoinOn
deriving Repr

/-- Aggregation descriptor `{type, column, alias}`. -/
structure Aggregation where
  aggType : String
  column : String
  aliasName : String
deriving Repr

/-- The `data` payload of a DML descriptor: an array of row objects
(insert) or a single row object (update).  JS `Array.prototype.length`
exists only for the former; reading `.length` of a plain object yields
`undefined`. -/
inductive DmlData where
  | rows (rs : List Row)
  | single (r : Row)
deriving Repr

/-- The DML descriptor assembled by the builder (the `dml` field of
`Table` in the source).  `data = none` models `data: null`. -/
structure DML where
  dmlType : String
  database : String
  table : String
  columns : List String
  distinct : Bool
  joins : List Join
  whereConds : List WhereNode
  orderBy : List (String × String)
  groupBy : List String
  limit : Option Int
  offset : Option Int
  data : Option DmlData
  aggregation : Option Aggregation
deriving Repr

/-- A computed-field descriptor `{column, instruction}` owned by the
external computed-field processor. -/
structure ComputedField where
  column : String
  instruction : String
deriving Repr

/-- A trigger descriptor `{type, database_ref, table_ref}` from the
external trigger registry.  `Trigger.get` matches on `type` alone. -/
structure TriggerDesc where
  trigType : String
  databaseRef : String
  tableRef : String
deriving Repr

/-- Response of the execution engine:
`{status, data, message}`, `status != 200` is a failure. -/
structure Response where
  status : Nat
  data : List Row
  message : String
deriving Repr

mutual

/-- Structural equality test for `JsValue`. -/
def JsValue.beq : JsValue → JsValue → Bool
  | .num a, .num b => a == b
  | .str a, .str b => a == b
  | .boolean a, .boolean b => a == b
  | .nullV, .nullV => true
  | .undef, .undef => true
  | .arr a, .arr b => JsValue.beqList a b
  | _, _ => false

/-- Structural equality test for lists of `JsValue`. -/
def JsValue.beqList : List JsValue → List JsValue → Bool
  | [], [] => true
  | a :: as_, b :: bs => JsValue.beq a b && JsValue.beqList as_ bs
  | _, _ => false

end

instance : BEq JsValue := ⟨JsValue.beq⟩

mutual

theorem JsValue.beq_iff : ∀ (a b : JsValue), JsValue.beq a b = true ↔ a = b
  | .num a, .num b => by simp [JsValue.beq]
  | .num _, .str _ => by simp [JsValue.beq]
  | .num _, .boolean _ => by simp [JsValue.beq]
  | .num _, .nullV => by simp [JsValue.beq]
  | .num _, .undef => by simp [JsValue.beq]
  | .num _, .arr _ => by simp [JsValue.beq]
  | .str _, .num _ => by simp [JsValue.beq]
  | .str a, .str b => by simp [JsValue.beq]
  | .str _, .boolean _ => by simp [JsValue.beq]
  | .str _, .nullV => by simp [JsValue.beq]
  | .str _, .undef => by simp [JsValue.beq]
  | .str _, .arr _ => by simp [JsValue.beq]
  | .boolean _, .num _ => by simp [JsValue.beq]
  | .boolean _, .str _ => by simp [JsValue.beq]
  | .boolean a, .boolean b => by simp [JsValue.beq]
  | .boolean _, .nullV => by simp [JsValue.beq]
  | .boolean _, .undef => by simp [JsValue.beq]
  | .boolean _, .arr _ => by simp [JsValue.beq]
  | .nullV, .num _ => by simp [JsValue.beq]
  | .nullV, .str _ => by simp [JsValue.beq]
  | .nullV, .boolean _ => by simp [JsValue.beq]
  | .nullV, .nullV => by simp [JsValue.beq]
  | .nullV, .undef => by simp [JsValue.beq]
  | .nullV, .arr _ => by simp [JsValue.beq]
  | .undef, .num _ => by simp [JsValue.beq]
  | .undef, .str _ => by simp [JsValue.beq]
  | .undef, .boolean _ => by simp [JsValue.beq]
  | .undef, .nullV => by simp [JsValue.beq]
  | .undef, .undef => by simp [JsValue.beq]
  | .undef, .arr _ => by simp [JsValue.beq]
  | .arr _, .num _ => by simp [JsValue.beq]
  | .arr _, .str _ => by simp [JsValue.beq]
  | .arr _, .boolean _ => by simp [JsValue.beq]
  | .arr _, .nullV => by simp [JsValue.beq]
  | .arr _, .undef => by simp [JsValue.beq]
  | .arr a, .arr b => by
      simp only [JsValue.beq, JsValue.arr.injEq]
      exact JsValue.beqList_iff a b

theorem JsValue.beqList_iff : ∀ (a b : List JsValue), JsValue.beqList a b = true ↔ a = b
  | [], [] => by simp [JsValue.beqList]
  | [], _ :: _ => by simp [JsValue.beqList]
  | _ :: _, [] => by simp [JsValue.beqList]
  | a :: as_, b :: bs => by
      simp only [JsValue.beqList, Bool.and_eq_true, List.cons.injEq]
      exact and_congr (JsValue.beq_iff a b) (JsValue.beqList_iff as_ bs)

end

instance : DecidableEq JsValue := fun a b =>
  decidable_of_iff (JsValue.beq a b = true) (JsValue.beq_iff a b)

/-- Insertion-ordered de-duplication, as performed by
`Array.from(new Set([...columns, ...dependencies]))` in the source
(a JS `Set` keeps first occurrences in insertion order). -/
def jsSetDedup (l : List String) : List String :=
  l.foldl (fun acc x => if x ∈ acc then acc else acc ++ [x]) []

/-- Accumulator of the computed-field rewrite loop in `getResponse`:
`computedFieldsNeeded`, `dependeciesArrray` and the local `columns`. -/
structure RwOut where
  needed : List ComputedField
  depsArr : List String
  columns : List String
deriving Repr

/-- One iteration of the `for (const field of localDML.columns)` loop in
`getResponse`: when `field` names a computed field, record it, append its
dependencies, and rewrite `columns` to
`Array.from(new Set([...columns, ...deps])).filter(col => col != field)`. -/
def rwStep (cf : List ComputedField) (extractDeps : String → List String)
    (st : RwOut) (field : String) : RwOut :=
  match cf.find? (fun c => c.column == field) with
  | some computedField =>
      let dependencies := extractDeps computedField.instruction
      { needed := st.needed ++ [computedField]
        depsArr := st.depsArr ++ dependencies
        columns := (jsSetDedup (st.columns ++ dependencies)).filter (fun col => col != field) }
  | none => st

/-- The whole computed-field rewrite loop of `getResponse`, folding
`rwStep` over the original column list. -/
def computedRewrite (cf : List ComputedField) (extractDeps : String → List String)
    (orig : List String) : RwOut :=
  orig.foldl (rwStep cf extractDeps) ⟨[], [], orig⟩

/-- `dependeciesArrray.forEach(key => delete newObj[key])`: remove every
listed key from a row object. -/
def stripKeys (ks : List String) (r : Row) : Row :=
  ks.foldl (fun row k => row.filter (fun p => p.1 != k)) r

/-- `res[key]` on a row object: `some v` when the key is present,
`none` models JS `undefined`. -/
def lookupRow (k : String) (r : Row) : Option JsValue :=
  (r.find? (fun p => p.1 == k)).map (fun p => p.2)

/-- Observable events of one orchestrated operation, in program order:
engine requests (`engine.run('query_engine', ['--action','execute',...])`),
trigger-handler invocations (`trigger.execute(key, row)`), interceptor
`discard()`/`commit()` calls, and the console output of
`returnFormattedError` (which only prints — it does not throw). -/
inductive Ev where
  | run (d : DML)
  | trig (key : String)
  | discard
  | commit
  | errlog (status : Nat)
deriving Repr

/-- Result of one `getResponse` call: the event trace, the value of
`arrayResult` after post-processing (the function's return value), and
`exc = some m` when the JS code would throw a `TypeError` (reading
`.length` of `null`); `rows` is meaningless in that case. -/
structure Out where
  events : List Ev
  rows : List Row
  exc : Option String
deriving Repr

/-- The engine requests contained in a trace, in dispatch order. -/
def Out.requests (o : Out) : List DML :=
  o.events.filterMap (fun e => match e with | .run d => some d | _ => none)

/-- External collaborators of the orchestrator: the execution engine, the
computed-field processor's `extractDependencies` and `computedFields`. -/
structure Collab where
  engine : DML → Response
  extractDeps : String → List String
  mat : List Row → List ComputedField → List Row

/-- The computed-field rewrite as it appears at the head of
`getResponse` (skipped entirely when no computed fields are loaded). -/
def rewriteFor (co : Collab) (cf : List ComputedField) (d : DML) : RwOut :=
  if 0 < cf.length then computedRewrite cf co.extractDeps d.columns
  else ⟨[], [], d.columns⟩

/-- The descriptor `getResponse` actually serializes for the engine:
the input descriptor with the (possibly rewritten) column list. -/
def dispatchedDml (co : Collab) (cf : List ComputedField) (d : DML) : DML :=
  { d with columns := (rewriteFor co cf d).columns }

/-- The single-request branch of `getResponse`: run the engine once; on
`status != 200` call `returnFormattedError` (which merely prints) and then
fall through, so `arrayResult = response.data` in every case. -/
def singleDispatch (engine : DML → Response) (d : DML) : Out :=
  let response := engine d
  { events := [Ev.run d] ++
      (if response.status != 200 then [Ev.errlog response.status] else [])
    rows := response.data
    exc := none }

/-- One iteration of the per-row trigger loop of `getResponse`, for the
row `data`.  The `before` branch executes the hook, runs the engine on the
single-row descriptor, calls `interceptor.discard()` and
`returnFormattedError` on failure, and then unconditionally reaches
`await interceptor.commit()` and `arrayResult = response.data` (there is
no throw and no early exit).  The `after` branch runs the engine first,
prints on failure, then executes the hook and commits. -/
def perRow (engine : DML → Response) (hasBefore hasAfter : Bool) (ty : String)
    (localDML : DML) (arrayResult : List Row) (data : Row) : List Ev × List Row :=
  let newDML := { localDML with data := some (DmlData.rows [data]) }
  let (beforeEvs, arr1) :=
    if hasBefore then
      let response := engine newDML
      ([Ev.trig ("before" ++ ty), Ev.run newDML] ++
        (if response.status != 200 then [Ev.discard, Ev.errlog response.status] else []) ++
        [Ev.commit],
       response.data)
    else ([], arrayResult)
  let afterEvs :=
    if hasAfter then
      let response := engine newDML
      [Ev.run newDML] ++
        (if response.status != 200 then [Ev.errlog response.status] else []) ++
        [Ev.trig ("after" ++ ty), Ev.commit]
    else []
  (beforeEvs ++ afterEvs, arr1)

/-- The `for (let index = 0; index < dataset.length; index++)` loop of
`getResponse`.  The iteration count is JS-faithful: for an array payload
it is the array length; for a single-object payload (`update`'s data)
`dataset.length` is `undefined`, the loop condition is false at once and
the body never runs; for `null` the property read throws a `TypeError`. -/
def triggerLoop (engine : DML → Response) (hasBefore hasAfter : Bool) (ty : String)
    (localDML : DML) : Out :=
  match localDML.data with
  | some (DmlData.rows rs) =>
      let (evs, arr) := rs.foldl
        (fun (acc : List Ev × List Row) data =>
          let (evs, arr) := perRow engine hasBefore hasAfter ty localDML acc.2 data
          (acc.1 ++ evs, arr))
        ([], [])
      { events := evs, rows := arr, exc := none }
  | some (DmlData.single _) => { events := [], rows := [], exc := none }
  | none => { events := [], rows := [],
              exc := some "TypeError: Cannot read properties of null (reading length)" }

/-- The dispatch step of `getResponse`: with an event-phase `ty` and a
registered `before<ty>`/`after<ty>` trigger (matched by phase alone — the
source's `Trigger.get` compares only `tr.type`), iterate the payload rows;
otherwise issue a single engine request. -/
def dispatch (engine : DML → Response) (triggers : List TriggerDesc)
    (localDML : DML) (ty? : Option String) : Out :=
  match ty? with
  | some ty =>
      let beffore := triggers.find? (fun tr => tr.trigType == "before" ++ ty)
      let after := triggers.find? (fun tr => tr.trigType == "after" ++ ty)
      if triggers.length != 0 && (beffore.isSome || after.isSome) then
        triggerLoop engine beffore.isSome after.isSome ty localDML
      else
        singleDispatch engine localDML
  | none => singleDispatch engine localDML

/-- The execution orchestrator `Table.getResponse(dml, type)`: rewrite
computed-field columns (only when the computed-field list is non-empty),
dispatch (per-row with triggers, or one request), then materialize the
needed computed fields and delete every recorded dependency column from
each result row. -/
def getResponse (co : Collab) (cf : List ComputedField) (triggers : List TriggerDesc)
    (dmlIn : DML) (ty? : Option String) : Out :=
  let rw := rewriteFor co cf dmlIn
  let o := dispatch co.engine triggers { dmlIn with columns := rw.columns } ty?
  if 0 < rw.needed.length then
    { o with rows := (co.mat o.rows rw.needed).map (stripKeys rw.depsArr) }
  else o

/-- Builder state: the pending connective `nextType`, the descriptor
`dml`, and the shared read-only computed-field and trigger lists. -/
structure Table where
  nextType : Conn
  dml : DML
  computedFields : List ComputedField
  triggers : List TriggerDesc
deriving Repr

/-- The descriptor literal of the `Table` constructor. -/
def initDml (databaseName tableName : String) : DML :=
  { dmlType := "select"
    database := databaseName
    table := tableName
    columns := ["*"]
    distinct := false
    joins := []
    whereConds := []
    orderBy := []
    groupBy := []
    limit := none
    offset := none
    data := none
    aggregation := none }

/-- The `Table` constructor: fresh descriptor, pending connective AND. -/
def mkTable (databaseName tableName : String) (cf : List ComputedField)
    (triggers : List TriggerDesc) : Table :=
  { nextType := Conn.AND
    dml := initDml databaseName tableName
    computedFields := cf
    triggers := triggers }

/-- `select(fields)`: sets `type` and `columns`
(`fields.length > 0 ? fields : ['*']`). -/
def Table.select (t : Table) (fields : List String) : Table :=
  { t with dml := { t.dml with
      dmlType := "select"
      columns := if 0 < fields.length then fields else ["*"] } }

/-- `where(column, operator, value)`: pushes a leaf with the pending
connective, then resets the pending connective to AND.  (`where` is a
Lean keyword, hence the name `whereCond`.) -/
def Table.whereCond (t : Table) (column operator : String) (value : JsValue) : Table :=
  { t with
    dml := { t.dml with whereConds :=
              t.dml.whereConds ++ [WhereNode.leaf column operator value t.nextType] }
    nextType := Conn.AND }

/-- `orWhere(column, operator, value)`: pushes a leaf with connective OR;
does not touch the pending connective. -/
def Table.orWhere (t : Table) (column operator : String) (value : JsValue) : Table :=
  { t with
    dml := { t.dml with whereConds :=
              t.dml.whereConds ++ [WhereNode.leaf column operator value Conn.OR] } }

/-- `or()`: sets the pending connective to OR. -/
def Table.or (t : Table) : Table := { t with nextType := Conn.OR }

/-- `and()`: sets the pending connective to AND. -/
def Table.and (t : Table) : Table := { t with nextType := Conn.AND }

/-- The fresh sub-builder constructed inside `whereGroup`.  The source
calls `new Table(this.dml.database, this.dml.table, this.engine)`, whose
parameters are `(instance, databaseName, tableName, ...)` — the arguments
are shifted by one slot, so the sub-builder's `databaseName` receives the
parent's table name and its `tableName` receives the engine object, which
we render as the marker string "[engine]".  Its condition tree is empty;
no claim depends on the name fields. -/
def whereGroupSub (t : Table) : Table :=
  mkTable t.dml.table "[engine]" [] []

/-- `whereGroup(callback)`: invoke the callback synchronously on the fresh
sub-builder and push one group node carrying the sub-builder's resulting
WHERE sequence, using the pending connective; then reset it to AND.  (The
source reads `groupQuery.dml.where` after the callback has run; modelling
the callback as `Table → Table` and reading its result is the pure
rendering of that.) -/
def Table.whereGroup (t : Table) (callback : Table → Table) : Table :=
  let groupQuery := callback (whereGroupSub t)
  { t with
    dml := { t.dml with whereConds :=
              t.dml.whereConds ++ [WhereNode.group t.nextType groupQuery.dml.whereConds] }
    nextType := Conn.AND }

/-- `whereBetween(column, [v1, v2])`: pushes a BETWEEN leaf holding the
pair unless either bound is `undefined`, in which case the call changes
nothing (the `if` guards both the push and the connective reset). -/
def Table.whereBetween (t : Table) (column : String) (values : JsValue × JsValue) : Table :=
  if values.1 != JsValue.undef && values.2 != JsValue.undef then
    { t with
      dml := { t.dml with whereConds :=
                t.dml.whereConds ++
                  [WhereNode.leaf column "BETWEEN" (JsValue.arr [values.1, values.2]) t.nextType] }
      nextType := Conn.AND }
  else t

/-- `whereIn(column, values)`: pushes an IN leaf when
`Array.isArray(values) && values.length > 0`, otherwise changes nothing. -/
def Table.whereIn (t : Table) (column : String) (values : JsValue) : Table :=
  match values with
  | JsValue.arr (v :: vs) =>
      { t with
        dml := { t.dml with whereConds :=
                  t.dml.whereConds ++
                    [WhereNode.leaf column "IN" (JsValue.arr (v :: vs)) t.nextType] }
        nextType := Conn.AND }
  | _ => t

/-- `whereNull(column)`: pushes an IS NULL leaf (no value — the source
omits `value`, reading back as `undefined`). -/
def Table.whereNull (t : Table) (column : String) : Table :=
  { t with
    dml := { t.dml with whereConds :=
              t.dml.whereConds ++ [WhereNode.leaf column "IS NULL" JsValue.undef t.nextType] }
    nextType := Conn.AND }

/-- `whereNotNull(column)`: pushes an IS NOT NULL leaf. -/
def Table.whereNotNull (t : Table) (column : String) : Table :=
  { t with
    dml := { t.dml with whereConds :=
              t.dml.whereConds ++ [WhereNode.leaf column "IS NOT NULL" JsValue.undef t.nextType] }
    nextType := Conn.AND }

/-- `count(column)` of the in-place variant (`src/lib/Database.ts`): sets
`type`, `aggregation` and `columns`, returns the builder; `limit` and
`data` are left untouched. -/
def Table.count (t : Table) (column : String) : Table :=
  { t with dml := { t.dml with
      dmlType := "select"
      aggregation := some { aggType := "COUNT", column := column, aliasName := "count" }
      columns := ["COUNT(" ++ column ++ ") AS count"] } }

/-- `sum(column)` of the in-place variant. -/
def Table.sum (t : Table) (column : String) : Table :=
  { t with dml := { t.dml with
      dmlType := "select"
      aggregation := some { aggType := "SUM", column := column, aliasName := "sum" }
      columns := ["SUM(" ++ column ++ ") AS sum"] } }

/-- `avg(column)` of the in-place variant. -/
def Table.avg (t : Table) (column : String) : Table :=
  { t with dml := { t.dml with
      dmlType := "select"
      aggregation := some { aggType := "AVG", column := column, aliasName := "avg" }
      columns := ["AVG(" ++ column ++ ") AS avg"] } }

/-- `max(column)` of the in-place variant. -/
def Table.max (t : Table) (column : String) : Table :=
  { t with dml := { t.dml with
      dmlType := "select"
      aggregation := some { aggType := "MAX", column := column, aliasName := "max" }
      columns := ["MAX(" ++ column ++ ") AS max"] } }

/-- `min(column)` of the in-place variant. -/
def Table.min (t : Table) (column : String) : Table :=
  { t with dml := { t.dml with
      dmlType := "select"
      aggregation := some { aggType := "MIN", column := column, aliasName := "min" }
      columns := ["MIN(" ++ column ++ ") AS min"] } }

/-- `limit(number)`. -/
def Table.limit (t : Table) (number : Int) : Table :=
  { t with dml := { t.dml with limit := some number } }

/-- `page(number)`: sets `offset = (number-1)*limit` when `this.dml.limit`
is truthy (both `null` and `0` are falsy in JS). -/
def Table.page (t : Table) (number : Int) : Table :=
  match t.dml.limit with
  | some l => if l != 0 then { t with dml := { t.dml with offset := some ((number - 1) * l) } }
              else t
  | none => t

/-- `get()`: sets `type = 'select'`, `data = null`, then
`getResponse()` with no event-phase. -/
def Table.get (t : Table) (co : Collab) : Out :=
  getResponse co t.computedFields t.triggers
    { t.dml with dmlType := "select", data := none } none

/-- Result of `first()`/`find()`: a row, JS `null`, or JS `undefined`
(the claim distinguishes the three). -/
inductive RowOrNull where
  | row (r : Row)
  | nullR
  | undefR
deriving Repr, DecidableEq

/-- `result[0]` on a JS array: the element, or `undefined` past the end. -/
def jsIndexZero (rows : List Row) : RowOrNull :=
  match rows.head? with
  | some r => RowOrNull.row r
  | none => RowOrNull.undefR

/-- `x || null`: row objects are truthy and survive; `undefined` is falsy
and is replaced by `null`. -/
def jsOrNull : RowOrNull → RowOrNull
  | RowOrNull.row r => RowOrNull.row r
  | _ => RowOrNull.nullR

/-- `first()`: sets `type = 'select'`, `data = null`, `limit = 1`
(overwriting any caller-set limit), executes, and returns
`result[0] || null`. -/
def Table.first (t : Table) (co : Collab) : Out × RowOrNull :=
  let out := getResponse co t.computedFields t.triggers
    { t.dml with dmlType := "select", data := none, limit := some 1 } none
  (out, jsOrNull (jsIndexZero out.rows))

/-- `find(value, column)`: `where(column, '=', value)` then `limit = 1`,
execute, return `result[0] || null`. -/
def Table.find (t : Table) (value : JsValue) (column : String) (co : Collab) : Out × RowOrNull :=
  let t1 := (t.whereCond column "=" value)
  let out := getResponse co t1.computedFields t1.triggers
    { t1.dml with dmlType := "select", data := none, limit := some 1 } none
  (out, jsOrNull (jsIndexZero out.rows))

/-- `insert(data)`: after the payload validations (our payload type makes
them pass), sets `type = 'insert'`, `data = the row array`, calls
`getResponse(dml, 'Add')`, and returns the input payload (not the engine
rows). -/
def Table.insert (t : Table) (data : List Row) (co : Collab) : Out × List Row :=
  let out := getResponse co t.computedFields t.triggers
    { t.dml with dmlType := "insert", data := some (DmlData.rows data) } (some "Add")
  (out, data)

/-- `update(data)`: rejects with a `ValidationError` before any dispatch
when the WHERE list is empty; otherwise sets `type = 'update'`,
`data = the single row object`, calls `getResponse(dml, 'Update')` and
returns the input payload. -/
def Table.update (t : Table) (data : Row) (co : Collab) : Except String (Out × Row) :=
  if t.dml.whereConds.length == 0 then
    Except.error "You must specify at least one WHERE condition to perform an update."
  else
    Except.ok
      (getResponse co t.computedFields t.triggers
        { t.dml with dmlType := "update", data := some (DmlData.single data) } (some "Update"),
       data)

/-- `delete()` of the in-place variant: rejects when the WHERE list is
empty; otherwise sets `type = 'delete'`, builds `newDml` — a copy reset to
a plain `SELECT *` over the same WHERE — calls
`getResponse(newDml, 'Delete')`, then calls `getResponse()` again with the
delete descriptor, and returns the rows of the first (select) call. -/
def Table.deleteOp (t : Table) (co : Collab) : Except String Out :=
  if t.dml.whereConds.length == 0 then
    Except.error "You must specify at least one WHERE condition to perform a delete."
  else
    let dmlDel := { t.dml with dmlType := "delete" }
    let newDml := { dmlDel with
      dmlType := "select", columns := ["*"], distinct := false, joins := [],
      orderBy := [], groupBy := [], limit := none, offset := none,
      data := none, aggregation := none }
    let out1 := getResponse co t.computedFields t.triggers newDml (some "Delete")
    let out2 := getResponse co t.computedFields t.triggers dmlDel none
    Except.ok { events := out1.events ++ out2.events, rows := out1.rows, exc := out1.exc }

namespace CW

/-- `count(column)` of the clone-on-write variant: clone, set `type`,
`aggregation`, the single aliased aggregate column, `data = null` and
`limit = 1`, execute, and return `res.count` of the first result row —
or the number `0` when there is no row (`result[0] || null` is null). -/
def count (t : Table) (column : String) (co : Collab) : Out × JsValue :=
  let dml := { t.dml with
    dmlType := "select"
    aggregation := some { aggType := "COUNT", column := column, aliasName := "count" }
    columns := ["COUNT(" ++ column ++ ") AS count"]
    data := none
    limit := some 1 }
  let out := getResponse co t.computedFields t.triggers dml none
  (out,
   match out.rows.head? with
   | some res => (lookupRow "count" res).getD JsValue.undef
   | none => JsValue.num 0)

/-- `sum(column)` of the clone-on-write variant: same shape as `count`
with the SUM aggregate aliased `sum`; clears `data`, forces `limit = 1`,
executes, and returns `res.sum` of the first result row or the number `0`
when there is no row. -/
def sum (t : Table) (column : String) (co : Collab) : Out × JsValue :=
  let dml := { t.dml with
    dmlType := "select"
    aggregation := some { aggType := "SUM", column := column, aliasName := "sum" }
    columns := ["SUM(" ++ column ++ ") AS sum"]
    data := none
    limit := some 1 }
  let out := getResponse co t.computedFields t.triggers dml none
  (out,
   match out.rows.head? with
   | some res => (lookupRow "sum" res).getD JsValue.undef
   | none => JsValue.num 0)

/-- `avg(column)` of the clone-on-write variant: AVG aggregate aliased
`avg`; clears `data`, forces `limit = 1`, executes, returns `res.avg` or
`0` when there is no row. -/
def avg (t : Table) (column : String) (co : Collab) : Out × JsValue :=
  let dml := { t.dml with
    dmlType := "select"
    aggregation := some { aggType := "AVG", column := column, aliasName := "avg" }
    columns := ["AVG(" ++ column ++ ") AS avg"]
    data := none
    limit := some 1 }
  let out := getResponse co t.computedFields t.triggers dml none
  (out,
   match out.rows.head? with
   | some res => (lookupRow "avg" res).getD JsValue.undef
   | none => JsValue.num 0)

/-- `max(column)` of the clone-on-write variant: MAX aggregate aliased
`max`; clears `data`, forces `limit = 1`, executes, returns `res.max` or
`0` when there is no row. -/
def max (t : Table) (column : String) (co : Collab) : Out × JsValue :=
  let dml := { t.dml with
    dmlType := "select"
    aggregation := some { aggType := "MAX", column := column, aliasName := "max" }
    columns := ["MAX(" ++ column ++ ") AS max"]
    data := none
    limit := some 1 }
  let out := getResponse co t.computedFields t.triggers dml none
  (out,
   match out.rows.head? with
   | some res => (lookupRow "max" res).getD JsValue.undef
   | none => JsValue.num 0)

/-- `min(column)` of the clone-on-write variant: MIN aggregate aliased
`min`; clears `data`, forces `limit = 1`, executes, returns `res.min` or
`0` when there is no row. -/
def min (t : Table) (column : String) (co : Collab) : Out × JsValue :=
  let dml := { t.dml with
    dmlType := "select"
    aggregation := some { aggType := "MIN", column := column, aliasName := "min" }
    columns := ["MIN(" ++ column ++ ") AS min"]
    data := none
    limit := some 1 }
  let out := getResponse co t.computedFields t.triggers dml none
  (out,
   match out.rows.head? with
   | some res => (lookupRow "min" res).getD JsValue.undef
   | none => JsValue.num 0)

end CW

/-- Heap model of builder objects, used to express the aliasing difference
between the two variants.  A `TObj` is the mutable state of one JS
`Table` object (its pending connective and its `dml`); a heap is a list of
objects addressed by index. -/
structure TObj where
  nextType : Conn
  dml : DML
deriving Repr

/-- Read an object from the heap (out-of-range reads never occur in the
concrete scenarios below). -/
def heapGet (h : List TObj) (r : Nat) : TObj :=
  (h[r]?).getD { nextType := Conn.AND, dml := initDml "" "" }

/-- `where` of the in-place variant (`src/lib/Database.ts`): pushes onto
`this.dml.where` — mutating the object in place — and returns `this`
(the same reference). -/
def whereMut (h : List TObj) (r : Nat) (column operator : String) (value : JsValue) :
    List TObj × Nat :=
  let o := heapGet h r
  (h.set r
    { o with
      dml := { o.dml with whereConds :=
                o.dml.whereConds ++ [WhereNode.leaf column operator value o.nextType] }
      nextType := Conn.AND },
   r)

/-- `where` of the clone-on-write variant: `this.clone()` allocates a new
object whose `dml` is a structural copy (spread plus fresh arrays), the
push lands on the clone, and the clone's reference is returned; the
receiver is untouched. -/
def whereClone (h : List TObj) (r : Nat) (column operator : String) (value : JsValue) :
    List TObj × Nat :=
  let o := heapGet h r
  (h ++ [{ o with
            dml := { o.dml with whereConds :=
                      o.dml.whereConds ++ [WhereNode.leaf column operator value o.nextType] }
            nextType := Conn.AND }],
   h.length)

/-- The descriptor that `get()` on the object at `r` hands to the engine:
`this.dml` with `type = 'select'` and `data = null`. -/
def getDispatch (h : List TObj) (r : Nat) : DML :=
  { (heapGet h r).dml with dmlType := "select", data := none }

/-- A collaborator whose engine always succeeds with one `{id:1}` row. -/
def coOk : Collab :=
  { engine := fun _ => { status := 200, data := [[("id", JsValue.num 1)]], message := "" }
    extractDeps := fun _ => []
    mat := fun rows _ => rows }

/-- A collaborator whose engine always succeeds with an empty row set. -/
def coEmpty : Collab :=
  { engine := fun _ => { status := 200, data := [], message := "" }
    extractDeps := fun _ => []
    mat := fun rows _ => rows }

/-- A collaborator whose engine always fails with status 500. -/
def coFail : Collab :=
  { engine := fun _ => { status := 500, data := [], message := "engine failure" }
    extractDeps := fun _ => []
    mat := fun rows _ => rows }

/-- A plain `users` builder with no computed fields and no triggers. -/
def tUsers : Table := mkTable "db" "users" [] []

/-- `users` with one WHERE node and no triggers. -/
def tUsersW : Table := tUsers.whereCond "id" "=" (JsValue.num 1)

theorem rwFold_no_match (cf : List ComputedField) (ed : String → List String) :
    ∀ (C : List String) (st : RwOut),
      (∀ c ∈ C, cf.find? (fun f => f.column == c) = none) →
      List.foldl (rwStep cf ed) st C = st := by
  intro C
  induction C with
  | nil => intro st _; rfl
  | cons c C ih =>
      intro st h
      have hc : cf.find? (fun f => f.column == c) = none := h c (List.mem_cons_self c C)
      have hstep : rwStep cf ed st c = st := by
        unfold rwStep
        rw [hc]
      rw [List.foldl_cons, hstep]
      exact ih st (fun x hx => h x (List.mem_cons_of_mem c hx))

theorem rwFold_needed_nil (cf : List ComputedField) (ed : String → List String) :
    ∀ (C : List String) (st : RwOut),
      (List.foldl (rwStep cf ed) st C).needed = [] →
      List.foldl (rwStep cf ed) st C = st := by
  intro C
  induction C with
  | nil => intro st _; rfl
  | cons c C ih =>
      intro st h
      rw [List.foldl_cons] at h ⊢
      have hfold := ih (rwStep cf ed st c) h
      rw [hfold] at h ⊢
      cases hfind : cf.find? (fun f => f.column == c) with
      | some f =>
          exfalso
          have : (rwStep cf ed st c).needed = st.needed ++ [f] := by
            unfold rwStep; rw [hfind]
          rw [this] at h
          exact List.append_ne_nil_of_right_ne_nil st.needed (by simp) h
      | none =>
          unfold rwStep; rw [hfind]

theorem mem_stripKeys : ∀ (ks : List String) (r : Row) (p : String × JsValue),
    p ∈ stripKeys ks r → p ∈ r ∧ ∀ k ∈ ks, p.1 ≠ k := by
  intro ks
  induction ks with
  | nil => intro r p hp; exact ⟨hp, by intro k hk; cases hk⟩
  | cons k ks ih =>
      intro r p hp
      have hp' : p ∈ stripKeys ks (r.filter (fun q => q.1 != k)) := hp
      obtain ⟨hmem, hrest⟩ := ih _ p hp'
      rw [List.mem_filter] at hmem
      refine ⟨hmem.1, ?_⟩
      intro k' hk'
      rcases List.mem_cons.mp hk' with h | h
      · subst h; exact bne_iff_ne.mp hmem.2
      · exact hrest k' h

theorem lookupRow_stripKeys (ks : List String) (r : Row) (k : String) (hk : k ∈ ks) :
    lookupRow k (stripKeys ks r) = none := by
  unfold lookupRow
  have : (stripKeys ks r).find? (fun p => p.1 == k) = none := by
    rw [List.find?_eq_none]
    intro p hp
    have := (mem_stripKeys ks r p hp).2 k hk
    simpa using this
  rw [this]
  rfl

theorem singleDispatch_events (engine : DML → Response) (d : DML) :
    (singleDispatch engine d).events =
      [Ev.run d] ++
        (if (engine d).status != 200 then [Ev.errlog (engine d).status] else []) := rfl

theorem singleDispatch_rows (engine : DML → Response) (d : DML) :
    (singleDispatch engine d).rows = (engine d).data := rfl

theorem getResponse_none_events (co : Collab) (cf : List ComputedField)
    (trg : List TriggerDesc) (d : DML) :
    (getResponse co cf trg d none).events =
      (singleDispatch co.engine (dispatchedDml co cf d)).events := by
  by_cases h : 0 < (rewriteFor co cf d).needed.length <;>
    simp [getResponse, dispatch, dispatchedDml, h]

theorem getResponse_none_exc (co : Collab) (cf : List ComputedField)
    (trg : List TriggerDesc) (d : DML) :
    (getResponse co cf trg d none).exc = none := by
  by_cases h : 0 < (rewriteFor co cf d).needed.length <;>
    simp [getResponse, dispatch, singleDispatch, h]

theorem getResponse_none_rows_nil (co : Collab) (cf : List ComputedField)
    (trg : List TriggerDesc) (d : DML) (h : (rewriteFor co cf d).needed = []) :
    (getResponse co cf trg d none).rows = (co.engine (dispatchedDml co cf d)).data := by
  simp [getResponse, dispatch, dispatchedDml, h, singleDispatch]

theorem getResponse_none_rows_pos (co : Collab) (cf : List ComputedField)
    (trg : List TriggerDesc) (d : DML) (h : 0 < (rewriteFor co cf d).needed.length) :
    (getResponse co cf trg d none).rows =
      (co.mat (co.engine (dispatchedDml co cf d)).data (rewriteFor co cf d).needed).map
        (stripKeys (rewriteFor co cf d).depsArr) := by
  simp [getResponse, dispatch, dispatchedDml, h, singleDispatch]

theorem requests_run_if (d : DML) (c : Bool) (s : Nat) (rows : List Row) (exc : Option String) :
    (Out.mk ([Ev.run d] ++ (if c then [Ev.errlog s] else [])) rows exc).requests = [d] := by
  cases c <;> simp [Out.requests, List.filterMap]

theorem getResponse_none_requests (co : Collab) (cf : List ComputedField)
    (trg : List TriggerDesc) (d : DML) :
    (getResponse co cf trg d none).requests = [dispatchedDml co cf d] := by
  unfold Out.requests
  rw [getResponse_none_events, singleDispatch_events]
  cases hc : (co.engine (dispatchedDml co cf d)).status != 200 <;>
    simp [List.filterMap, hc]

theorem getResponse_some_noMatch (co : Collab) (cf : List ComputedField)
    (trg : List TriggerDesc) (d : DML) (ty : String)
    (hb : trg.find? (fun tr => tr.trigType == "before" ++ ty) = none)
    (ha : trg.find? (fun tr => tr.trigType == "after" ++ ty) = none) :
    getResponse co cf trg d (some ty) = getResponse co cf trg d none := by
  unfold getResponse dispatch
  simp [hb, ha]

theorem dispatchedDml_nil_cf (co : Collab) (d : DML) : dispatchedDml co [] d = d := rfl

theorem dispatchedDml_limit (co : Collab) (cf : List ComputedField) (d : DML) :
    (dispatchedDml co cf d).limit = d.limit := rfl

theorem dispatchedDml_data (co : Collab) (cf : List ComputedField) (d : DML) :
    (dispatchedDml co cf d).data = d.data := rfl

theorem dispatchedDml_dmlType (co : Collab) (cf : List ComputedField) (d : DML) :
    (dispatchedDml co cf d).dmlType = d.dmlType := rfl

/-- Base builder for the branch-isolation scenario: one WHERE node. -/
def c1Base : TObj :=
  { nextType := Conn.AND
    dml := { initDml "db" "users" with
              whereConds := [WhereNode.leaf "a" "=" (JsValue.num 1) Conn.AND] } }

/-- First branch under the mutating variant: `B.where("x", "=", 2)`. -/
def c1MutStep1 : List TObj × Nat := whereMut [c1Base] 0 "x" "=" (JsValue.num 2)

/-- Second branch under the mutating variant, derived from the same base
reference: `B.where("y", "=", 3)`. -/
def c1MutStep2 : List TObj × Nat := whereMut c1MutStep1.1 0 "y" "=" (JsValue.num 3)

/-- First branch under the clone-on-write variant. -/
def c1CloneStep1 : List TObj × Nat := whereClone [c1Base] 0 "x" "=" (JsValue.num 2)

/-- Second branch under the clone-on-write variant, derived from the same
base reference. -/
def c1CloneStep2 : List TObj × Nat := whereClone c1CloneStep1.1 0 "y" "=" (JsValue.num 3)

/-- Claim C1: builder chaining is claimed to be clone-on-write, with
branch isolation.  The in-place variant (`src/lib/Database.ts`, whose
`where` pushes onto the shared `this.dml` and returns `this`) violates it:
deriving `B.where("x","=",2)` and then `B.where("y","=",3)` from a base
holding `a = 1` leaves the second branch's dispatched request containing
the condition `x` (and the base itself mutated).  The clone-on-write
variant satisfies the claim: the base object is unchanged and the second
branch's request holds exactly `[a = 1, y = 3]`. -/
theorem C1_mutating_variant_contaminates_branches :
    (getDispatch c1MutStep2.1 c1MutStep2.2).whereConds =
      [WhereNode.leaf "a" "=" (JsValue.num 1) Conn.AND,
       WhereNode.leaf "x" "=" (JsValue.num 2) Conn.AND,
       WhereNode.leaf "y" "=" (JsValue.num 3) Conn.AND]
    ∧ heapGet c1CloneStep2.1 0 = c1Base
    ∧ (getDispatch c1CloneStep2.1 c1CloneStep2.2).whereConds =
        [WhereNode.leaf "a" "=" (JsValue.num 1) Conn.AND,
         WhereNode.leaf "y" "=" (JsValue.num 3) Conn.AND] :=
  ⟨rfl, rfl, rfl⟩

/-- A `beforeAdd` trigger for the `users` table. -/
def trgBeforeAdd : TriggerDesc :=
  { trigType := "beforeAdd", databaseRef := "db", tableRef := "users" }

/-- `users` builder with the `beforeAdd` trigger registered. -/
def tUsersTrig : Table := mkTable "db" "users" [] [trgBeforeAdd]

/-- The two-row insert payload of the engine-failure scenario. -/
def c2Payload : List Row := [[("a", JsValue.num 1)], [("a", JsValue.num 2)]]

/-- Claim C2: engine failures are claimed to reject the operation, abort
the remaining per-row iterations, and leave the before-hook interceptor
discarded.  Evaluating `insert` of two rows with a registered `beforeAdd`
trigger against an engine that always returns status 500 shows the
opposite: `returnFormattedError` only prints, so after
`interceptor.discard()` the code still reaches `interceptor.commit()`,
the loop runs for the second row, no exception is raised (`exc = none`),
and the call returns its payload normally. -/
theorem C2_engine_failure_swallowed :
    (tUsersTrig.insert c2Payload coFail).1 =
      { events :=
          [Ev.trig "beforeAdd",
           Ev.run { initDml "db" "users" with
                    dmlType := "insert"
                    data := some (DmlData.rows [[("a", JsValue.num 1)]]) },
           Ev.discard, Ev.errlog 500, Ev.commit,
           Ev.trig "beforeAdd",
           Ev.run { initDml "db" "users" with
                    dmlType := "insert"
                    data := some (DmlData.rows [[("a", JsValue.num 2)]]) },
           Ev.discard, Ev.errlog 500, Ev.commit]
        rows := []
        exc := none }
    ∧ (tUsersTrig.insert c2Payload coFail).2 = c2Payload :=
  ⟨rfl, rfl⟩

/-- `users` with a `beforeUpdate` trigger and one WHERE node. -/
def tUpdTrig : Table :=
  (mkTable "db" "users" []
    [{ trigType := "beforeUpdate", databaseRef := "db", tableRef := "users" }]).whereCond
    "age" ">" (JsValue.num 18)

/-- `users` with one WHERE node and no triggers. -/
def tUpdNoTrig : Table :=
  (mkTable "db" "users" [] []).whereCond "age" ">" (JsValue.num 18)

/-- Claim C3: `update` without WHERE rejects before dispatch (confirmed),
and without a matching trigger dispatches exactly one request
(confirmed); but with a registered `beforeUpdate` trigger the claimed
one-request-per-payload-row dispatch does not happen: `update`'s payload
is a single object, `dataset.length` is `undefined`, the per-row loop
never runs, and zero engine requests are issued. -/
theorem C3_update_trigger_loop_never_dispatches :
    (tUpdTrig.update [("status", JsValue.str "x")] coOk =
      Except.ok ({ events := [], rows := [], exc := none }, [("status", JsValue.str "x")]))
    ∧ ((mkTable "db" "users" [] []).update [("status", JsValue.str "x")] coOk =
        Except.error "You must specify at least one WHERE condition to perform an update.")
    ∧ (tUpdNoTrig.update [("status", JsValue.str "x")] coOk =
        Except.ok
          ({ events :=
              [Ev.run { initDml "db" "users" with
                        dmlType := "update"
                        whereConds := [WhereNode.leaf "age" ">" (JsValue.num 18) Conn.AND]
                        data := some (DmlData.single [("status", JsValue.str "x")]) }]
             rows := [[("id", JsValue.num 1)]]
             exc := none },
           [("status", JsValue.str "x")])) :=
  ⟨rfl, rfl, rfl⟩

/-- Claim C5: `table("users").where("age", ">", 18).orWhere("name", "=",
"Alice")` produces exactly the two-node WHERE sequence, in order, the
first node's connective stored as AND, the second as OR. -/
theorem C5_where_orWhere_sequence :
    (((mkTable "db" "users" [] []).whereCond "age" ">" (JsValue.num 18)).orWhere
        "name" "=" (JsValue.str "Alice")).dml.whereConds =
      [WhereNode.leaf "age" ">" (JsValue.num 18) Conn.AND,
       WhereNode.leaf "name" "=" (JsValue.str "Alice") Conn.OR] :=
  rfl

/-- Claim C6: `whereGroup(callback)` hands the callback a fresh
sub-builder whose condition tree is empty and appends one group node whose
`conditions` are the WHERE sequence the callback built, under the pending
connective; in particular the documented example produces the group node
(connective AND, leaf connectives AND then OR) followed by the `status`
leaf with connective AND. -/
theorem C6_whereGroup_group_node :
    (∀ (t : Table) (cb : Table → Table),
      (t.whereGroup cb).dml.whereConds =
        t.dml.whereConds ++ [WhereNode.group t.nextType (cb (whereGroupSub t)).dml.whereConds])
    ∧ (∀ t : Table, (whereGroupSub t).dml.whereConds = [])
    ∧ (((mkTable "db" "users" [] []).whereGroup
          (fun q => (q.whereCond "age" ">" (JsValue.num 25)).orWhere
                      "name" "=" (JsValue.str "Jane"))).whereCond
          "status" "=" (JsValue.str "active")).dml.whereConds =
        [WhereNode.group Conn.AND
          [WhereNode.leaf "age" ">" (JsValue.num 25) Conn.AND,
           WhereNode.leaf "name" "=" (JsValue.str "Jane") Conn.OR],
         WhereNode.leaf "status" "=" (JsValue.str "active") Conn.AND] :=
  ⟨fun _ _ => rfl, fun _ => rfl, rfl⟩

instance : LawfulBEq JsValue where
  eq_of_beq h := (JsValue.beq_iff _ _).mp h
  rfl := (JsValue.beq_iff _ _).mpr rfl

/-- A computed field `total` whose instruction reads `price` and `qty`. -/
def cfTotal : List ComputedField := [{ column := "total", instruction := "price + qty" }]

/-- Collaborators for the computed-field scenario: the engine returns one
`{price:2, qty:3}` row and the processor materializes `total = 5`. -/
def coCx : Collab :=
  { engine := fun _ =>
      { status := 200, data := [[("price", JsValue.num 2), ("qty", JsValue.num 3)]], message := "" }
    extractDeps := fun _ => ["price", "qty"]
    mat := fun rows _ => rows.map (fun r => r ++ [("total", JsValue.num 5)]) }

theorem computedRewrite_nil_cf (ed : String → List String) (C : List String) :
    computedRewrite [] ed C = ⟨[], [], C⟩ :=
  rwFold_no_match [] ed C ⟨[], [], C⟩ (fun _ _ => rfl)

theorem rewriteFor_depsArr (co : Collab) (cf : List ComputedField) (d : DML) :
    (rewriteFor co cf d).depsArr = (computedRewrite cf co.extractDeps d.columns).depsArr := by
  unfold rewriteFor
  by_cases h : 0 < cf.length
  · simp [h]
  · have hnil : cf = [] := List.length_eq_zero.mp (Nat.eq_zero_of_not_pos h)
    subst hnil
    simp [computedRewrite_nil_cf]

theorem rewriteFor_needed_nil_depsArr (co : Collab) (cf : List ComputedField) (d : DML)
    (h : (rewriteFor co cf d).needed = []) : (rewriteFor co cf d).depsArr = [] := by
  unfold rewriteFor at h ⊢
  by_cases hc : 0 < cf.length
  · rw [if_pos hc] at h ⊢
    unfold computedRewrite at h ⊢
    rw [rwFold_needed_nil cf co.extractDeps d.columns ⟨[], [], d.columns⟩ h]
  · rw [if_neg hc] at h ⊢

/-- Claim C4, counterexample: `select(["total","price"]).get()` with the
computed field `total` (dependencies `price`, `qty`) dispatches columns
`["price","qty"]` as claimed, but the returned rows are stripped of
`price` even though the caller explicitly requested it — the claimed
"leaving originally requested columns intact" fails. -/
theorem C4_counterexample :
    "price" ∈ ["total", "price"]
    ∧ (((mkTable "db" "products" cfTotal []).select ["total", "price"]).get coCx).requests =
        [{ initDml "db" "products" with columns := ["price", "qty"] }]
    ∧ (((mkTable "db" "products" cfTotal []).select ["total", "price"]).get coCx).rows =
        [[("total", JsValue.num 5)]] :=
  ⟨by decide, rfl, rfl⟩

/-- Claim C4, amended: for all non-empty column sequences C,
`select(C).get()` issues exactly one engine request; when C contains no
computed-field name, the request's columns are exactly C and the rows are
returned verbatim; and every dependency column recorded by the rewrite is
stripped from every returned row — including dependency columns the caller
originally requested. -/
theorem C4_select_get_columns (db tb : String) (cf : List ComputedField) (co : Collab)
    (C : List String) (hC : C ≠ []) :
    ((((mkTable db tb cf []).select C).get co).requests.length = 1)
    ∧ ((∀ c ∈ C, cf.find? (fun f => f.column == c) = none) →
        (((mkTable db tb cf []).select C).get co).requests = [{ initDml db tb with columns := C }]
        ∧ (((mkTable db tb cf []).select C).get co).rows =
            (co.engine { initDml db tb with columns := C }).data)
    ∧ (∀ r ∈ (((mkTable db tb cf []).select C).get co).rows,
        ∀ k ∈ (computedRewrite cf co.extractDeps C).depsArr, lookupRow k r = none) := by
  have hlen : 0 < C.length := List.length_pos.mpr hC
  have hsel : ((mkTable db tb cf []).select C).get co =
      getResponse co cf [] { initDml db tb with columns := C } none := by
    unfold Table.get Table.select mkTable
    simp [hlen, initDml]
  refine ⟨?_, ?_, ?_⟩
  · rw [hsel, getResponse_none_requests]
    rfl
  · intro hnone
    have hrw : rewriteFor co cf { initDml db tb with columns := C } = ⟨[], [], C⟩ := by
      unfold rewriteFor
      by_cases h : 0 < cf.length
      · rw [if_pos h]
        exact rwFold_no_match cf co.extractDeps C ⟨[], [], C⟩ hnone
      · rw [if_neg h]
    have hdd : dispatchedDml co cf { initDml db tb with columns := C } =
        { initDml db tb with columns := C } := by
      unfold dispatchedDml
      rw [hrw]
    constructor
    · rw [hsel, getResponse_none_requests, hdd]
    · rw [hsel, getResponse_none_rows_nil _ _ _ _ (by rw [hrw]), hdd]
  · intro r hr k hk
    have hdeps : (rewriteFor co cf { initDml db tb with columns := C }).depsArr =
        (computedRewrite cf co.extractDeps C).depsArr :=
      rewriteFor_depsArr co cf { initDml db tb with columns := C }
    by_cases hneed : 0 < (rewriteFor co cf { initDml db tb with columns := C }).needed.length
    · rw [hsel, getResponse_none_rows_pos _ _ _ _ hneed] at hr
      obtain ⟨r0, _, hr0⟩ := List.mem_map.mp hr
      rw [← hr0]
      exact lookupRow_stripKeys _ r0 k (by rw [hdeps]; exact hk)
    · have hnil : (rewriteFor co cf { initDml db tb with columns := C }).needed = [] :=
        List.length_eq_zero.mp (Nat.eq_zero_of_not_pos hneed)
      have : (computedRewrite cf co.extractDeps C).depsArr = [] := by
        rw [← hdeps]
        exact rewriteFor_needed_nil_depsArr co cf _ hnil
      rw [this] at hk
      cases hk

/-- Witness for C4: a concrete one-column select with no computed fields
dispatches one request and returns the engine rows verbatim. -/
theorem C4_select_get_columns_witness :
    ((((mkTable "d" "t" [] []).select ["id"]).get coOk).requests.length = 1)
    ∧ (((mkTable "d" "t" [] []).select ["id"]).get coOk).rows = [[("id", JsValue.num 1)]] :=
  ⟨(C4_select_get_columns "d" "t" [] coOk ["id"] (by decide)).1,
   ((C4_select_get_columns "d" "t" [] coOk ["id"] (by decide)).2.1
      (fun _ _ => rfl)).2.trans rfl⟩

theorem rewriteFor_nil_cf (co : Collab) (d : DML) :
    rewriteFor co [] d = ⟨[], [], d.columns⟩ := rfl

theorem getResponse_nil_cf_requests (co : Collab) (trg : List TriggerDesc) (d : DML) :
    (getResponse co [] trg d none).requests = [d] := by
  rw [getResponse_none_requests, dispatchedDml_nil_cf]

theorem getResponse_nil_cf_rows (co : Collab) (trg : List TriggerDesc) (d : DML) :
    (getResponse co [] trg d none).rows = (co.engine d).data := by
  rw [getResponse_none_rows_nil co [] trg d (by rw [rewriteFor_nil_cf]), dispatchedDml_nil_cf]

theorem requests_combined (o1 o2 : Out) (rows : List Row) (exc : Option String) :
    (Out.mk (o1.events ++ o2.events) rows exc).requests = o1.requests ++ o2.requests := by
  simp [Out.requests, List.filterMap_append]

/-- Claim C7, counterexample: `delete()` with no triggers issues TWO
engine requests (a select of the affected rows, then the delete), not one;
and `insert` returns its input payload rather than the engine's result
rows (which here differ). -/
theorem C7_counterexample :
    (tUsersW.deleteOp coOk).toOption.map (fun o => o.requests.length) = some 2
    ∧ ((mkTable "db" "users" [] []).insert [[("a", JsValue.num 1)]] coOk).2 =
        [[("a", JsValue.num 1)]]
    ∧ ((mkTable "db" "users" [] []).insert [[("a", JsValue.num 1)]] coOk).1.rows =
        [[("id", JsValue.num 1)]]
    ∧ [[("a", JsValue.num 1)]] ≠ ([[("id", JsValue.num 1)]] : List Row) :=
  ⟨rfl, rfl, rfl, by decide⟩

/-- Claim C7, amended: with no computed fields loaded, the read terminals
(`get`/`first`/`find`) issue exactly one engine request and `get` returns
the engine rows verbatim; `insert` and `update` with no trigger of the
matching phase registered (matching is by phase alone) issue exactly one
request but return the caller's payload; `delete` issues exactly two
requests — a `SELECT *` over the same WHERE, then the delete — and returns
the rows of the preliminary select. -/
theorem C7_dispatch_profile (t : Table) (co : Collab) (hcf : t.computedFields = []) :
    ((t.get co).requests = [{ t.dml with dmlType := "select", data := none }]
      ∧ (t.get co).rows = (co.engine { t.dml with dmlType := "select", data := none }).data)
    ∧ (t.first co).1.requests =
        [{ t.dml with dmlType := "select", data := none, limit := some 1 }]
    ∧ (∀ (v : JsValue) (c : String),
        (t.find v c co).1.requests =
          [{ t.dml with
              dmlType := "select"
              whereConds := t.dml.whereConds ++ [WhereNode.leaf c "=" v t.nextType]
              data := none
              limit := some 1 }])
    ∧ (∀ data : List Row,
        t.triggers.find? (fun tr => tr.trigType == "beforeAdd") = none →
        t.triggers.find? (fun tr => tr.trigType == "afterAdd") = none →
        (t.insert data co).1.requests =
          [{ t.dml with dmlType := "insert", data := some (DmlData.rows data) }]
        ∧ (t.insert data co).2 = data)
    ∧ (∀ data : Row,
        t.dml.whereConds ≠ [] →
        t.triggers.find? (fun tr => tr.trigType == "beforeUpdate") = none →
        t.triggers.find? (fun tr => tr.trigType == "afterUpdate") = none →
        (t.update data co).toOption.map (fun p => p.1.requests) =
          some [{ t.dml with dmlType := "update", data := some (DmlData.single data) }]
        ∧ (t.update data co).toOption.map (fun p => p.2) = some data)
    ∧ (t.dml.whereConds ≠ [] →
        t.triggers.find? (fun tr => tr.trigType == "beforeDelete") = none →
        t.triggers.find? (fun tr => tr.trigType == "afterDelete") = none →
        (t.deleteOp co).toOption.map Out.requests =
          some [{ t.dml with
                  dmlType := "select", columns := ["*"], distinct := false, joins := [],
                  orderBy := [], groupBy := [], limit := none, offset := none,
                  data := none, aggregation := none },
                { t.dml with dmlType := "delete" }]
        ∧ (t.deleteOp co).toOption.map Out.rows =
            some (co.engine
              { t.dml with
                dmlType := "select", columns := ["*"], distinct := false, joins := [],
                orderBy := [], groupBy := [], limit := none, offset := none,
                data := none, aggregation := none }).data) := by
  refine ⟨⟨?_, ?_⟩, ?_, ?_, ?_, ?_, ?_⟩
  · unfold Table.get
    rw [hcf, getResponse_nil_cf_requests]
  · unfold Table.get
    rw [hcf, getResponse_nil_cf_rows]
  · unfold Table.first
    rw [hcf, getResponse_nil_cf_requests]
  · intro v c
    unfold Table.find Table.whereCond
    rw [hcf, getResponse_nil_cf_requests]
  · intro data hb ha
    unfold Table.insert
    rw [hcf, getResponse_some_noMatch _ _ _ _ _ hb ha, getResponse_nil_cf_requests]
    exact ⟨rfl, rfl⟩
  · intro data hne hb ha
    unfold Table.update
    have hlen : ¬(t.dml.whereConds.length == 0) = true := by
      simp [List.length_eq_zero, hne]
    rw [if_neg hlen, hcf, getResponse_some_noMatch _ _ _ _ _ hb ha]
    refine ⟨?_, rfl⟩
    show some ((getResponse co [] t.triggers
        { t.dml with dmlType := "update", data := some (DmlData.single data) } none).requests) = _
    rw [getResponse_nil_cf_requests]
  · intro hne hb ha
    unfold Table.deleteOp
    have hlen : ¬(t.dml.whereConds.length == 0) = true := by
      simp [List.length_eq_zero, hne]
    rw [if_neg hlen, hcf]
    dsimp only
    rw [getResponse_some_noMatch _ _ _ _ _ hb ha]
    constructor
    · show some ((Out.mk
        ((getResponse co [] t.triggers _ none).events ++
          (getResponse co [] t.triggers { t.dml with dmlType := "delete" } none).events)
        _ _).requests) = _
      rw [requests_combined, getResponse_nil_cf_requests, getResponse_nil_cf_requests]
      rfl
    · show some ((getResponse co [] t.triggers _ none).rows) = _
      rw [getResponse_nil_cf_rows]

/-- Witness for C7: on a concrete builder with one WHERE node and no
triggers, `get` dispatches exactly its own descriptor, and `delete`
dispatches two requests. -/
theorem C7_dispatch_profile_witness :
    (tUsersW.get coOk).requests =
      [{ tUsersW.dml with dmlType := "select", data := none }]
    ∧ (tUsersW.deleteOp coOk).toOption.map Out.requests =
        some [{ tUsersW.dml with
                dmlType := "select", columns := ["*"], distinct := false, joins := [],
                orderBy := [], groupBy := [], limit := none, offset := none,
                data := none, aggregation := none },
              { tUsersW.dml with dmlType := "delete" }] :=
  ⟨(C7_dispatch_profile tUsersW coOk rfl).1.1,
   ((C7_dispatch_profile tUsersW coOk rfl).2.2.2.2.2
      (by exact List.cons_ne_nil _ _) rfl rfl).1⟩

/-- Claim C8, counterexample: in the in-place variant
(`src/lib/Database.ts`), none of the five aggregate shortcuts forces
`limit = 1` — each leaves the descriptor's limit at its prior value
(`null` on a fresh builder). -/
theorem C8_counterexample :
    (((mkTable "db" "users" [] []).count "*").dml.limit = none
      ∧ ((mkTable "db" "users" [] []).count "*").dml.limit ≠ some 1)
    ∧ (((mkTable "db" "users" [] []).sum "age").dml.limit = none
      ∧ ((mkTable "db" "users" [] []).sum "age").dml.limit ≠ some 1)
    ∧ (((mkTable "db" "users" [] []).avg "age").dml.limit = none
      ∧ ((mkTable "db" "users" [] []).avg "age").dml.limit ≠ some 1)
    ∧ (((mkTable "db" "users" [] []).max "age").dml.limit = none
      ∧ ((mkTable "db" "users" [] []).max "age").dml.limit ≠ some 1)
    ∧ (((mkTable "db" "users" [] []).min "age").dml.limit = none
      ∧ ((mkTable "db" "users" [] []).min "age").dml.limit ≠ some 1) :=
  ⟨⟨rfl, by decide⟩, ⟨rfl, by decide⟩, ⟨rfl, by decide⟩, ⟨rfl, by decide⟩,
   ⟨rfl, by decide⟩⟩

/-- Claim C8, amended: every aggregate shortcut sets the aggregation
descriptor and rewrites `columns` to the single aliased aggregate
expression; in the clone-on-write variant each shortcut additionally
clears `data`, forces `limit = 1` on the dispatched request, executes
immediately, and returns the number `0` when the engine produces no row
(in particular `count()` on an empty result set returns `0`); in the
in-place variant the shortcuts leave `limit` unchanged and return the
builder without executing. -/
theorem C8_aggregate_shortcuts (t : Table) (col : String) (co : Collab) :
    ((t.count col).dml.aggregation =
        some { aggType := "COUNT", column := col, aliasName := "count" }
      ∧ (t.count col).dml.columns = ["COUNT(" ++ col ++ ") AS count"]
      ∧ (t.count col).dml.limit = t.dml.limit)
    ∧ ((t.sum col).dml.aggregation =
        some { aggType := "SUM", column := col, aliasName := "sum" }
      ∧ (t.sum col).dml.columns = ["SUM(" ++ col ++ ") AS sum"]
      ∧ (t.sum col).dml.limit = t.dml.limit)
    ∧ ((t.avg col).dml.aggregation =
        some { aggType := "AVG", column := col, aliasName := "avg" }
      ∧ (t.avg col).dml.columns = ["AVG(" ++ col ++ ") AS avg"]
      ∧ (t.avg col).dml.limit = t.dml.limit)
    ∧ ((t.max col).dml.aggregation =
        some { aggType := "MAX", column := col, aliasName := "max" }
      ∧ (t.max col).dml.columns = ["MAX(" ++ col ++ ") AS max"]
      ∧ (t.max col).dml.limit = t.dml.limit)
    ∧ ((t.min col).dml.aggregation =
        some { aggType := "MIN", column := col, aliasName := "min" }
      ∧ (t.min col).dml.columns = ["MIN(" ++ col ++ ") AS min"]
      ∧ (t.min col).dml.limit = t.dml.limit)
    ∧ (t.computedFields = [] →
        ((CW.count t col co).1.requests =
            [{ t.dml with
                dmlType := "select"
                aggregation := some { aggType := "COUNT", column := col, aliasName := "count" }
                columns := ["COUNT(" ++ col ++ ") AS count"]
                data := none
                limit := some 1 }]
          ∧ ((co.engine { t.dml with
                dmlType := "select"
                aggregation := some { aggType := "COUNT", column := col, aliasName := "count" }
                columns := ["COUNT(" ++ col ++ ") AS count"]
                data := none
                limit := some 1 }).data = [] →
              (CW.count t col co).2 = JsValue.num 0))
        ∧ ((CW.sum t col co).1.requests =
            [{ t.dml with
                dmlType := "select"
                aggregation := some { aggType := "SUM", column := col, aliasName := "sum" }
                columns := ["SUM(" ++ col ++ ") AS sum"]
                data := none
                limit := some 1 }]
          ∧ ((co.engine { t.dml with
                dmlType := "select"
                aggregation := some { aggType := "SUM", column := col, aliasName := "sum" }
                columns := ["SUM(" ++ col ++ ") AS sum"]
                data := none
                limit := some 1 }).data = [] →
              (CW.sum t col co).2 = JsValue.num 0))
        ∧ ((CW.avg t col co).1.requests =
            [{ t.dml with
                dmlType := "select"
                aggregation := some { aggType := "AVG", column := col, aliasName := "avg" }
                columns := ["AVG(" ++ col ++ ") AS avg"]
                data := none
                limit := some 1 }]
          ∧ ((co.engine { t.dml with
                dmlType := "select"
                aggregation := some { aggType := "AVG", column := col, aliasName := "avg" }
                columns := ["AVG(" ++ col ++ ") AS avg"]
                data := none
                limit := some 1 }).data = [] →
              (CW.avg t col co).2 = JsValue.num 0))
        ∧ ((CW.max t col co).1.requests =
            [{ t.dml with
                dmlType := "select"
                aggregation := some { aggType := "MAX", column := col, aliasName := "max" }
                columns := ["MAX(" ++ col ++ ") AS max"]
                data := none
                limit := some 1 }]
          ∧ ((co.engine { t.dml with
                dmlType := "select"
                aggregation := some { aggType := "MAX", column := col, aliasName := "max" }
                columns := ["MAX(" ++ col ++ ") AS max"]
                data := none
                limit := some 1 }).data = [] →
              (CW.max t col co).2 = JsValue.num 0))
        ∧ ((CW.min t col co).1.requests =
            [{ t.dml with
                dmlType := "select"
                aggregation := some { aggType := "MIN", column := col, aliasName := "min" }
                columns := ["MIN(" ++ col ++ ") AS min"]
                data := none
                limit := some 1 }]
          ∧ ((co.engine { t.dml with
                dmlType := "select"
                aggregation := some { aggType := "MIN", column := col, aliasName := "min" }
                columns := ["MIN(" ++ col ++ ") AS min"]
                data := none
                limit := some 1 }).data = [] →
              (CW.min t col co).2 = JsValue.num 0))) := by
  refine ⟨⟨rfl, rfl, rfl⟩, ⟨rfl, rfl, rfl⟩, ⟨rfl, rfl, rfl⟩, ⟨rfl, rfl, rfl⟩,
         ⟨rfl, rfl, rfl⟩, ?_⟩
  intro hcf
  refine ⟨⟨?_, ?_⟩, ⟨?_, ?_⟩, ⟨?_, ?_⟩, ⟨?_, ?_⟩, ⟨?_, ?_⟩⟩
  · unfold CW.count
    rw [hcf]
    dsimp only
    rw [getResponse_nil_cf_requests]
  · intro hdata
    unfold CW.count
    rw [hcf]
    dsimp only
    rw [getResponse_nil_cf_rows, hdata]
    rfl
  · unfold CW.sum
    rw [hcf]
    dsimp only
    rw [getResponse_nil_cf_requests]
  · intro hdata
    unfold CW.sum
    rw [hcf]
    dsimp only
    rw [getResponse_nil_cf_rows, hdata]
    rfl
  · unfold CW.avg
    rw [hcf]
    dsimp only
    rw [getResponse_nil_cf_requests]
  · intro hdata
    unfold CW.avg
    rw [hcf]
    dsimp only
    rw [getResponse_nil_cf_rows, hdata]
    rfl
  · unfold CW.max
    rw [hcf]
    dsimp only
    rw [getResponse_nil_cf_requests]
  · intro hdata
    unfold CW.max
    rw [hcf]
    dsimp only
    rw [getResponse_nil_cf_rows, hdata]
    rfl
  · unfold CW.min
    rw [hcf]
    dsimp only
    rw [getResponse_nil_cf_requests]
  · intro hdata
    unfold CW.min
    rw [hcf]
    dsimp only
    rw [getResponse_nil_cf_rows, hdata]
    rfl

/-- Witness for C8: on a fresh `users` builder against an engine that
returns no rows, the clone-on-write `count` and `sum` yield the number 0,
and the in-place `count` leaves the limit at its prior value. -/
theorem C8_aggregate_shortcuts_witness :
    (CW.count tUsers "*" coEmpty).2 = JsValue.num 0
    ∧ (CW.sum tUsers "age" coEmpty).2 = JsValue.num 0
    ∧ (tUsers.count "*").dml.limit = tUsers.dml.limit :=
  ⟨(((C8_aggregate_shortcuts tUsers "*" coEmpty).2.2.2.2.2 rfl).1.2) rfl,
   (((C8_aggregate_shortcuts tUsers "age" coEmpty).2.2.2.2.2 rfl).2.1.2) rfl,
   (C8_aggregate_shortcuts tUsers "*" coEmpty).1.2.2⟩

/-- Claim C9: `whereBetween` is a silent no-op when either bound is
`undefined` and otherwise appends exactly one BETWEEN leaf holding the
pair; `whereIn` is a no-op when the value is not an array or is the empty
array, and otherwise appends exactly one IN leaf. -/
theorem C9_whereBetween_whereIn (t : Table) (col : String) (v1 v2 vs : JsValue) :
    (v1 = JsValue.undef ∨ v2 = JsValue.undef → t.whereBetween col (v1, v2) = t)
    ∧ (v1 ≠ JsValue.undef → v2 ≠ JsValue.undef →
        (t.whereBetween col (v1, v2)).dml.whereConds =
          t.dml.whereConds ++ [WhereNode.leaf col "BETWEEN" (JsValue.arr [v1, v2]) t.nextType])
    ∧ ((∀ l : List JsValue, vs ≠ JsValue.arr l) → t.whereIn col vs = t)
    ∧ (t.whereIn col (JsValue.arr []) = t)
    ∧ (∀ (x : JsValue) (xs : List JsValue),
        (t.whereIn col (JsValue.arr (x :: xs))).dml.whereConds =
          t.dml.whereConds ++ [WhereNode.leaf col "IN" (JsValue.arr (x :: xs)) t.nextType]) := by
  refine ⟨?_, ?_, ?_, rfl, fun _ _ => rfl⟩
  · intro h
    rcases h with h | h <;> subst h <;> simp [Table.whereBetween]
  · intro h1 h2
    unfold Table.whereBetween
    rw [if_pos]
    simp [h1, h2]
  · intro h
    cases vs with
    | arr l => exact absurd rfl (h l)
    | num n => rfl
    | str s => rfl
    | boolean b => rfl
    | nullV => rfl
    | undef => rfl

/-- Witness for C9: an `undefined` lower bound makes `whereBetween` a
no-op, and a non-empty `whereIn` appends one IN leaf. -/
theorem C9_whereBetween_whereIn_witness :
    tUsers.whereBetween "age" (JsValue.undef, JsValue.num 30) = tUsers
    ∧ (tUsers.whereIn "id" (JsValue.arr [JsValue.num 1])).dml.whereConds =
        tUsers.dml.whereConds ++
          [WhereNode.leaf "id" "IN" (JsValue.arr [JsValue.num 1]) tUsers.nextType] :=
  ⟨(C9_whereBetween_whereIn tUsers "age" JsValue.undef (JsValue.num 30)
      (JsValue.arr [])).1 (Or.inl rfl),
   (C9_whereBetween_whereIn tUsers "id" JsValue.undef (JsValue.num 30)
      (JsValue.arr [])).2.2.2.2 (JsValue.num 1) []⟩

/-- Claim C10: `first()` dispatches exactly one request whose descriptor
has `limit = 1` (overwriting any caller-set limit), `data = null` and type
select; and when the engine returns an empty row set (and the computed
field materializer maps no rows to no rows, its documented contract) the
call returns JS `null`, not `undefined` and not an error. -/
theorem C10_first_limit_one_null (t : Table) (co : Collab)
    (hmat : ∀ cfs, co.mat [] cfs = []) :
    (t.first co).1.requests.length = 1
    ∧ (∀ d ∈ (t.first co).1.requests, d.limit = some 1 ∧ d.data = none ∧ d.dmlType = "select")
    ∧ ((∀ d, (co.engine d).data = []) → (t.first co).2 = RowOrNull.nullR) := by
  refine ⟨?_, ?_, ?_⟩
  · show (getResponse co t.computedFields t.triggers
      { t.dml with dmlType := "select", data := none, limit := some 1 } none).requests.length = 1
    rw [getResponse_none_requests]
    rfl
  · intro d hd
    show d.limit = some 1 ∧ d.data = none ∧ d.dmlType = "select"
    have : d = dispatchedDml co t.computedFields
        { t.dml with dmlType := "select", data := none, limit := some 1 } := by
      have hreq : (t.first co).1.requests =
          [dispatchedDml co t.computedFields
            { t.dml with dmlType := "select", data := none, limit := some 1 }] :=
        getResponse_none_requests co t.computedFields t.triggers _
      rw [hreq] at hd
      simpa using hd
    subst this
    exact ⟨rfl, rfl, rfl⟩
  · intro heng
    have hrows : (t.first co).1.rows = [] := by
      by_cases hneed : 0 < (rewriteFor co t.computedFields
          { t.dml with dmlType := "select", data := none, limit := some 1 }).needed.length
      · show (getResponse co t.computedFields t.triggers
            { t.dml with dmlType := "select", data := none, limit := some 1 } none).rows = []
        rw [getResponse_none_rows_pos _ _ _ _ hneed, heng, hmat]
        rfl
      · show (getResponse co t.computedFields t.triggers
            { t.dml with dmlType := "select", data := none, limit := some 1 } none).rows = []
        rw [getResponse_none_rows_nil _ _ _ _
            (List.length_eq_zero.mp (Nat.eq_zero_of_not_pos hneed)), heng]
    show jsOrNull (jsIndexZero (t.first co).1.rows) = RowOrNull.nullR
    rw [hrows]
    rfl

/-- Witness for C10: a concrete `first()` against an empty-result engine
dispatches one request and returns JS null. -/
theorem C10_first_limit_one_null_witness :
    ((Table.limit tUsers 5).first coEmpty).1.requests.length = 1
    ∧ ((Table.limit tUsers 5).first coEmpty).2 = RowOrNull.nullR :=
  ⟨(C10_first_limit_one_null (Table.limit tUsers 5) coEmpty (fun _ => rfl)).1,
   (C10_first_limit_one_null (Table.limit tUsers 5) coEmpty (fun _ => rfl)).2.2
     (fun _ => rfl)⟩
